import Mathlib

/-!
Shallow embedding of the OCI FFI wrapper library (src/lib.rs).

The library translates native OCI status codes into structured `OracleError`
values and wraps each native entry point in a fallible Rust function.  Native
calls are modelled by passing their observable outputs (the returned status
integer and any values written through out-pointers) as explicit parameters,
and the diagnostic calls issued against an error handle are recorded in an
explicit trace so that statements about "no handle lookup" can be made.
-/

namespace RustOci

/-- Rust `struct OracleError { code: isize, message: String, location: String }`. -/
structure OracleError where
  code : Int
  message : String
  location : String
deriving DecidableEq, Repr

/-- Rust `impl fmt::Display for OracleError`: renders
`"\n\n  Error code: {}\n  Error message: {}\n  Where: {}\n\n"` with the three
fields substituted in order. -/
def OracleError.display (e : OracleError) : String :=
  "\n\n  Error code: " ++ toString e.code ++
  "\n  Error message: " ++ e.message ++
  "\n  Where: " ++ e.location ++ "\n\n"

/-- Rust `enum OCIMode` (environment mode flags). -/
inductive OCIMode where
  | Default
  | Threaded
  | Object
  | Events
  | NoUcb
  | NoMutex
  | SuppressNLSValidation
  | NcharLiteralReplaceOn
  | NcharLiteralReplaceOff
  | EnableNLSValidation
deriving DecidableEq, Repr

/-- Rust `enum OCIHandleType`. -/
inductive OCIHandleType where
  | Environment
  | Error
  | Service
  | Statement
  | Bind
  | Define
  | Describe
  | Server
  | Session
  | Transaction
deriving DecidableEq, Repr

/-- Rust `enum OCICredentialsType`. -/
inductive OCICredentialsType where
  | Rdbms
  | External
deriving DecidableEq, Repr

/-- Rust `enum OCIAuthMode`. -/
inductive OCIAuthMode where
  | Default
  | Migrate
  | Sysdba
  | Sysoper
  | PrelimAuth
  | StmtCache
deriving DecidableEq, Repr

/-- Rust `enum OCIAttribute` (attribute-type tags for `oci_attr_set`). -/
inductive OCIAttribute where
  | Server
  | Session
  | Username
  | Password
deriving DecidableEq, Repr

/-- Rust `enum OCIDescribeAttribute` (describe-attribute tags for `oci_attr_get`). -/
inductive OCIDescribeAttribute where
  | DataSize
  | DataType
  | DisplaySize
  | Name
  | Precision
  | Scale
  | IsNull
  | CharUsed
  | CharLength
deriving DecidableEq, Repr

/-- One native `OCIErrorGet` invocation, as observed at the FFI boundary:
the requested record number and the buffer size handed to the native layer. -/
structure DiagCall where
  recordno : Nat
  bufsiz : Nat
deriving DecidableEq, Repr

/-- Model of the diagnostic state behind an `*mut OCIError` handle: for each
record number, the signed error code the native `OCIErrorGet` writes through
`errcodep` and the message bytes it writes into the buffer of the caller. -/
structure OCIErrorState where
  diagCode : Nat → Int
  diagMsg : Nat → List Nat

/-- Result of `check_error` (`Option<OracleError>` in the source, plus an
explicit constructor for the `panic!("Unknown return code")` arm, which in
Rust aborts instead of returning). -/
inductive CheckErrorStatus where
  | ok : CheckErrorStatus
  | err : OracleError → CheckErrorStatus
  | panicked : String → CheckErrorStatus
deriving DecidableEq, Repr

/-- Result of a public wrapper (`Result<α, OracleError>` in the source, plus
the propagated abort from an unrecognized status code). -/
inductive OCIResult (α : Type) where
  | ok : α → OCIResult α
  | err : OracleError → OCIResult α
  | panicked : String → OCIResult α
deriving DecidableEq, Repr

/-- The `match check_error(...) { None => Ok(x), Some(err) => Err(err) }`
pattern shared by every public wrapper. -/
def CheckErrorStatus.toResult {α : Type} (c : CheckErrorStatus) (x : α) : OCIResult α :=
  match c with
  | .ok => .ok x
  | .err e => .err e
  | .panicked m => .panicked m

/-- The error location carried by a wrapper result, if it is an error. -/
def OCIResult.errLocation {α : Type} : OCIResult α → Option String
  | .ok _ => none
  | .err e => some e.location
  | .panicked _ => none

/-- Model of `pub fn oci_error_get(error_handle: *mut OCIError, location: &str) -> OracleError`.

The source initialises `errc` to `0`, creates `buf = String::with_capacity(3072)`
(an empty string whose backing buffer holds 3072 bytes), and issues one
`OCIErrorGet(handle, 1, null, errc, buf.as_ptr(), buf.capacity(), OCI_HTYPE_ERROR)`
call.  The native layer writes the error code of the record through `errcodep` and
its message bytes into the raw buffer; the buffer write never updates the Rust
`String` length, so `buf` remains the empty string when it is moved into the
returned value.  The second component is the trace of native diagnostic calls
issued. -/
def oci_error_get (error_handle : OCIErrorState) (location : String) :
    OracleError × List DiagCall :=
  let call : DiagCall := { recordno := 1, bufsiz := 3072 }
  let errc : Int := error_handle.diagCode call.recordno
  let buf : String := ""
  let _written : List Nat := (error_handle.diagMsg call.recordno).take call.bufsiz
  ({ code := errc, message := buf, location := location }, [call])

/-- Model of `pub fn check_error(code: c_int, error_handle: Option<*mut OCIError>, location: &str)
-> Option<OracleError>`.

`by_handle` is computed eagerly before the `match` on `code`: whenever an
error handle is supplied, `oci_error_get` is invoked regardless of the status
code.  The second component is the trace of native diagnostic calls issued. -/
def check_error (code : Int) (error_handle : Option OCIErrorState)
    (location : String) : CheckErrorStatus × List DiagCall :=
  let by_handle : Option OracleError × List DiagCall :=
    match error_handle with
    | some handle =>
        let r := oci_error_get handle location
        (some r.1, r.2)
    | none => (none, [])
  let result : CheckErrorStatus :=
    if code = 0 then .ok
    else if code = 100 then
      .err { code := code, message := "No data", location := location }
    else if code = -2 then
      .err { code := code, message := "Invalid handle", location := location }
    else if code = 99 then
      .err { code := code, message := "Need data", location := location }
    else if code = -3123 then
      .err { code := code, message := "Still executing", location := location }
    else if code = -1 then
      .err (by_handle.1.getD
        { code := code, message := "Error with no details", location := location })
    else if code = 1 then
      .err (by_handle.1.getD
        { code := code, message := "Success with info", location := location })
    else .panicked "Unknown return code"
  (result, by_handle.2)

/-- Model of `pub fn oci_env_nls_create(mode: OCIMode) -> Result<*mut OCIEnv, OracleError>`.
`status` is the integer returned by the native `OCIEnvNlsCreate` call and
`handleOut` the environment handle it writes through `envp`. -/
def oci_env_nls_create (mode : OCIMode) (status : Int) (handleOut : Nat) :
    OCIResult Nat :=
  let _ := mode
  (check_error status none "ffi::oci_env_nls_create").1.toResult handleOut

/-- Model of `pub fn oci_handle_alloc(envh, htype) -> Result<*mut c_void, OracleError>`. -/
def oci_handle_alloc (envh : Nat) (htype : OCIHandleType) (status : Int)
    (handleOut : Nat) : OCIResult Nat :=
  let _ := envh
  let _ := htype
  (check_error status none "ffi::oci_handle_alloc").1.toResult handleOut

/-- Model of `pub fn oci_server_attach(server_handle, error_handle, db, mode) -> Result<(), OracleError>`. -/
def oci_server_attach (server_handle : Nat) (error_handle : OCIErrorState)
    (db : String) (mode : OCIMode) (status : Int) : OCIResult Unit :=
  let _ := server_handle
  let _ := db
  let _ := mode
  (check_error status (some error_handle) "ffi::oci_server_attach").1.toResult ()

/-- The bytes `CStr::from_ptr(value).to_bytes()` reads from the buffer behind
`value`: everything up to (excluding) the first NUL byte. -/
def cstrBytes (value : List Nat) : List Nat :=
  value.takeWhile (fun b => b ≠ 0)

/-- Model of `pub fn oci_attr_set(handle, htype, value, attr_type, error_handle)
-> Result<(), OracleError>`.

`value` is modelled as the byte buffer the `*mut c_void` points to.  For
`Username`/`Password` the source computes
`CStr::from_ptr(value).to_bytes().len() as c_uint`; for every other attribute
the size is `0`.  The second component of the result is the `size` value
passed to the native `OCIAttrSet` call. -/
def oci_attr_set (handle : Nat) (htype : OCIHandleType) (value : List Nat)
    (attr_type : OCIAttribute) (error_handle : OCIErrorState) (status : Int) :
    OCIResult Unit × Nat :=
  let _ := handle
  let _ := htype
  let size : Nat :=
    match attr_type with
    | .Username | .Password => (cstrBytes value).length % 2 ^ 32
    | _ => 0
  ((check_error status (some error_handle) "ffi::oci_attr_set").1.toResult (), size)

/-- Model of `pub fn oci_session_begin(service_handle, error_handle, session_handle,
credentials_type, mode) -> Result<(), OracleError>`. -/
def oci_session_begin (service_handle : Nat) (error_handle : OCIErrorState)
    (session_handle : Nat) (credentials_type : OCICredentialsType)
    (mode : OCIAuthMode) (status : Int) : OCIResult Unit :=
  let _ := service_handle
  let _ := session_handle
  let _ := credentials_type
  let _ := mode
  (check_error status (some error_handle) "ffi::oci_session_begin").1.toResult ()

/-- Model of `pub fn oci_session_end(service_handle, error_handle, session_handle)
-> Result<(), OracleError>`. -/
def oci_session_end (service_handle : Nat) (error_handle : OCIErrorState)
    (session_handle : Nat) (status : Int) : OCIResult Unit :=
  let _ := service_handle
  let _ := session_handle
  (check_error status (some error_handle) "ffi::oci_session_end").1.toResult ()

/-- Model of `pub fn oci_server_detach(server_handle, error_handle) -> Result<(), OracleError>`. -/
def oci_server_detach (server_handle : Nat) (error_handle : OCIErrorState)
    (status : Int) : OCIResult Unit :=
  let _ := server_handle
  (check_error status (some error_handle) "ffi::oci_server_detach").1.toResult ()

/-- Model of `pub fn oci_handle_free(handle, htype) -> Result<(), OracleError>`. -/
def oci_handle_free (handle : Nat) (htype : OCIHandleType) (status : Int) :
    OCIResult Unit :=
  let _ := handle
  let _ := htype
  (check_error status none "ffi::oci_handle_free").1.toResult ()

/-- Model of `pub fn oci_stmt_prepare2(service_handle, error_handle, stmt_text, stmt_hash)
-> Result<*mut OCIStmt, OracleError>`.  `stmtOut` is the statement handle the
native call writes through `stmtp`. -/
def oci_stmt_prepare2 (service_handle : Nat) (error_handle : OCIErrorState)
    (stmt_text : String) (stmt_hash : String) (status : Int) (stmtOut : Nat) :
    OCIResult Nat :=
  let _ := service_handle
  let _ := stmt_text
  let _ := stmt_hash
  (check_error status (some error_handle) "ffi::oci_stmt_prepare2").1.toResult stmtOut

/-- Model of `pub fn oci_stmt_execute(service_handle, stmt_handle, error_handle)
-> Result<(), OracleError>`. -/
def oci_stmt_execute (service_handle : Nat) (stmt_handle : Nat)
    (error_handle : OCIErrorState) (status : Int) : OCIResult Unit :=
  let _ := service_handle
  let _ := stmt_handle
  (check_error status (some error_handle) "ffi::oci_stmt_execute").1.toResult ()

/-- Model of `pub fn oci_stmt_release(stmt_handle, error_handle, stmt_hash)
-> Result<(), OracleError>`. -/
def oci_stmt_release (stmt_handle : Nat) (error_handle : OCIErrorState)
    (stmt_hash : String) (status : Int) : OCIResult Unit :=
  let _ := stmt_handle
  let _ := stmt_hash
  (check_error status (some error_handle) "ffi::oci_stmt_release").1.toResult ()

/-- Model of `pub fn oci_param_get(stmt_handle, error_handle, position)
-> Result<*mut c_void, OracleError>`.  `paramOut` is the descriptor the native
call writes through `parmdpp` (the source passes `&mut parameter_descriptor`). -/
def oci_param_get (stmt_handle : Nat) (error_handle : OCIErrorState)
    (position : Nat) (status : Int) (paramOut : Nat) : OCIResult Nat :=
  let _ := stmt_handle
  let _ := position
  (check_error status (some error_handle) "ffi::oci_param_get").1.toResult paramOut

/-- Observable outputs of one native `OCIAttrGet` call: the returned status,
the size written through `sizep`, and the attribute payload the native layer
produces for the requested attribute (what it stores through `attributep`). -/
structure OCIAttrGetNative where
  status : Int
  sizeOut : Nat
  payloadOut : Nat
deriving DecidableEq, Repr

/-- Model of `pub fn oci_attr_get(attr_handle, error_handle, attr_type)
-> Result<(*mut c_void, isize), OracleError>`.

The source sets `let attribute = ptr::null_mut();` and passes that null
pointer BY VALUE as `attributep` (not `&mut attribute`), so the write of the native call, namely
payload write (`native.payloadOut`) never reaches the local `attribute`, which
stays null (modelled as `0`).  `sizep` is passed as `&mut attribute_size`, so
the size is received. -/
def oci_attr_get (attr_handle : Nat) (error_handle : OCIErrorState)
    (attr_type : OCIDescribeAttribute) (native : OCIAttrGetNative) :
    OCIResult (Nat × Int) :=
  let _ := attr_handle
  let _ := attr_type
  let attributeLocal : Nat := 0
  let attribute_size : Nat := native.sizeOut
  (check_error native.status (some error_handle) "ffi::oci_attr_get").1.toResult
    (attributeLocal, (attribute_size : Int))

/-- A concrete diagnostic state, used for closed evaluations: record `n`
reports code `-942` and message bytes `[79, 82, 65]`. -/
def errState0 : OCIErrorState :=
  { diagCode := fun _ => -942, diagMsg := fun _ => [79, 82, 65] }

/-- A concrete native `OCIAttrGet` outcome: status `0` (success), size `4`
written through `sizep`, payload `7` produced for the requested attribute. -/
def attrNative0 : OCIAttrGetNative :=
  { status := 0, sizeOut := 4, payloadOut := 7 }

/-- Re-associate an append whose left literal splits as `p ++ q = pq`. -/
theorem append_regroup (p q pq : String) (h : p ++ q = pq)
    (r : String) : pq ++ r = p ++ (q ++ r) := by
  rw [← h, String.append_assoc]

/-- Every error produced by `check_error` carries the location string that
was passed in: the fixed-message arms build it from `location` directly, and
the `-1`/`1` arms either take the value from `oci_error_get` (which also stores
`location`) or the fallback built from `location`. -/
theorem check_error_err_location (code : Int) (h : Option OCIErrorState)
    (loc : String) (e : OracleError) :
    (check_error code h loc).1 = .err e → e.location = loc := by
  intro he
  cases h with
  | none =>
      simp only [check_error] at he
      split_ifs at he <;> cases he <;> rfl
  | some hh =>
      simp only [check_error] at he
      split_ifs at he <;> cases he <;> rfl

/-- Lift `check_error_err_location` through the `toResult` wrapper pattern. -/
theorem errLocation_toResult {α : Type} (c : CheckErrorStatus) (x : α)
    (loc : String) (hc : ∀ e, c = .err e → e.location = loc) :
    (c.toResult x).errLocation = none ∨ (c.toResult x).errLocation = some loc := by
  cases c with
  | ok => exact Or.inl rfl
  | err e =>
      exact Or.inr (by
        simp only [CheckErrorStatus.toResult, OCIResult.errLocation]
        rw [hc e rfl])
  | panicked m => exact Or.inl rfl

/-- C1: for status `-1` or `1` with an error handle supplied, `check_error`
returns exactly the `OracleError` produced by `oci_error_get` on that handle
(code and message threaded through unchanged); with no handle it returns the
fixed fallback message ("Error with no details" for `-1`, "Success with info"
for `1`) with code equal to the status. -/
theorem c1_detail_codes_thread_diagnostics :
    ∀ (h : OCIErrorState) (loc : String),
      ((check_error (-1) (some h) loc).1 = .err (oci_error_get h loc).1 ∧
       (check_error 1 (some h) loc).1 = .err (oci_error_get h loc).1) ∧
      ((check_error (-1) none loc).1 =
         .err { code := -1, message := "Error with no details", location := loc } ∧
       (check_error 1 none loc).1 =
         .err { code := 1, message := "Success with info", location := loc }) := by
  intro h loc
  exact ⟨⟨rfl, rfl⟩, rfl, rfl⟩

/-- C2 counterexample: the claim says no diagnostic lookup on the error
handle is performed for status `100`, but `check_error` computes `by_handle`
eagerly before matching on the code, so supplying a handle issues one
`OCIErrorGet` call even for status `100`. -/
theorem c2_counterexample_lookup_performed :
    (check_error 100 (some errState0) "L").2 =
      [{ recordno := 1, bufsiz := 3072 }] ∧
    (check_error 100 (some errState0) "L").2 ≠ [] :=
  ⟨rfl, by decide⟩

/-- C2 (amended): for status codes `100`, `-2`, `99`, `-3123`, `check_error`
returns the fixed message and code equal to the status regardless of whether
an error handle is supplied; however, whenever a handle is supplied a
diagnostic lookup IS performed (for every status code) and its result is
discarded on these arms, and no lookup happens only when no handle is
supplied. -/
theorem c2_fixed_message_codes :
    ∀ (h : OCIErrorState) (loc : String),
      ((check_error 100 (some h) loc).1 =
         .err { code := 100, message := "No data", location := loc } ∧
       (check_error 100 none loc).1 =
         .err { code := 100, message := "No data", location := loc }) ∧
      ((check_error (-2) (some h) loc).1 =
         .err { code := -2, message := "Invalid handle", location := loc } ∧
       (check_error (-2) none loc).1 =
         .err { code := -2, message := "Invalid handle", location := loc }) ∧
      ((check_error 99 (some h) loc).1 =
         .err { code := 99, message := "Need data", location := loc } ∧
       (check_error 99 none loc).1 =
         .err { code := 99, message := "Need data", location := loc }) ∧
      ((check_error (-3123) (some h) loc).1 =
         .err { code := -3123, message := "Still executing", location := loc } ∧
       (check_error (-3123) none loc).1 =
         .err { code := -3123, message := "Still executing", location := loc }) ∧
      (∀ code : Int,
        (check_error code (some h) loc).2 = [{ recordno := 1, bufsiz := 3072 }] ∧
        (check_error code none loc).2 = []) := by
  intro h loc
  exact ⟨⟨rfl, rfl⟩, ⟨rfl, rfl⟩, ⟨rfl, rfl⟩, ⟨rfl, rfl⟩, fun _ => ⟨rfl, rfl⟩⟩

/-- C3: for any status code outside `{0, 100, -2, 99, -3123, -1, 1}`,
`check_error` reaches the `panic!("Unknown return code")` arm (modelled as
the `panicked` constructor) rather than returning success or an error, for
any error-handle argument. -/
theorem c3_unknown_code_aborts :
    ∀ (code : Int) (h : Option OCIErrorState) (loc : String),
      code ∉ ([0, 100, -2, 99, -3123, -1, 1] : List Int) →
      (check_error code h loc).1 = .panicked "Unknown return code" := by
  intro code h loc hmem
  simp only [List.mem_cons, List.not_mem_nil, or_false, not_or] at hmem
  obtain ⟨h0, h100, h2, h99, h3123, hm1, h1⟩ := hmem
  cases h with
  | none => simp [check_error, h0, h100, h2, h99, h3123, hm1, h1]
  | some hh => simp [check_error, h0, h100, h2, h99, h3123, hm1, h1]

/-- Witness for C3 at status `42`. -/
theorem c3_unknown_code_aborts_witness :
    ((42 : Int) ∉ ([0, 100, -2, 99, -3123, -1, 1] : List Int)) ∧
    (check_error 42 (some errState0) "L").1 = .panicked "Unknown return code" :=
  ⟨by decide, c3_unknown_code_aborts 42 (some errState0) "L" (by decide)⟩

/-- C4: status `0` translates to no error, whether or not an error handle is
supplied. -/
theorem c4_zero_is_success :
    ∀ (h : Option OCIErrorState) (loc : String), (check_error 0 h loc).1 = .ok := by
  intro h loc
  rfl

/-- C5: `oci_error_get` issues exactly one native diagnostic call, requesting
record index `1` with a `3072`-byte buffer, and the location of the returned error
equals the caller-supplied location string. -/
theorem c5_error_get_single_record :
    ∀ (h : OCIErrorState) (loc : String),
      (oci_error_get h loc).2 = [{ recordno := 1, bufsiz := 3072 }] ∧
      (oci_error_get h loc).2.length = 1 ∧
      (oci_error_get h loc).1.location = loc := by
  intro h loc
  exact ⟨rfl, rfl, rfl⟩

/-- C6: `oci_attr_set` passes to the native layer a size equal to the byte
length of the value up to its first NUL terminator for `Username`/`Password`
(whenever that length fits in `c_uint`, which the `as c_uint` cast assumes),
and size `0` for every other attribute type. -/
theorem c6_attr_set_size :
    ∀ (handle : Nat) (htype : OCIHandleType) (value : List Nat)
      (errh : OCIErrorState) (status : Int),
      ((cstrBytes value).length < 2 ^ 32 →
        (oci_attr_set handle htype value .Username errh status).2 =
          (cstrBytes value).length ∧
        (oci_attr_set handle htype value .Password errh status).2 =
          (cstrBytes value).length) ∧
      (oci_attr_set handle htype value .Server errh status).2 = 0 ∧
      (oci_attr_set handle htype value .Session errh status).2 = 0 := by
  intro handle htype value errh status
  exact ⟨fun hlt => ⟨Nat.mod_eq_of_lt hlt, Nat.mod_eq_of_lt hlt⟩, rfl, rfl⟩

/-- Witness for C6: the buffer holds `"scott"`, a NUL, then three bytes of
over-allocation; the size passed is `5`. -/
theorem c6_attr_set_size_witness :
    (cstrBytes [115, 99, 111, 116, 116, 0, 120, 120, 120]).length < 2 ^ 32 ∧
    (oci_attr_set 0 OCIHandleType.Session [115, 99, 111, 116, 116, 0, 120, 120, 120]
      OCIAttribute.Username errState0 0).2 = 5 :=
  ⟨by decide, by
    have h := (c6_attr_set_size 0 OCIHandleType.Session
      [115, 99, 111, 116, 116, 0, 120, 120, 120] errState0 0).1 (by decide)
    have h5 : (cstrBytes [115, 99, 111, 116, 116, 0, 120, 120, 120]).length = 5 := by
      decide
    rw [h.1, h5]⟩

/-- C7 counterexample: the claim says a successful `oci_attr_get` returns the
payload pointer produced by the native call, but the source passes
`ptr::null_mut()` by value as `attributep`, so the native payload (`7` here)
never reaches the returned value, which carries the null pointer `0`. -/
theorem c7_counterexample_null_payload :
    oci_attr_get 0 errState0 .DataSize attrNative0 = .ok (0, 4) ∧
    (0 : Nat) ≠ attrNative0.payloadOut :=
  ⟨rfl, by decide⟩

/-- C7 (amended): on native success `oci_attr_get` returns a null payload
pointer (`0`) — not the payload the native call produced — together with the
size the native call wrote through `sizep`; on a native failure status it
returns an error. -/
theorem c7_attr_get_amended :
    ∀ (ah : Nat) (errh : OCIErrorState) (attr : OCIDescribeAttribute)
      (native : OCIAttrGetNative),
      (native.status = 0 →
        oci_attr_get ah errh attr native = .ok (0, (native.sizeOut : Int))) ∧
      (native.status ∈ ([100, -2, 99, -3123, -1, 1] : List Int) →
        ∃ e, oci_attr_get ah errh attr native = .err e) := by
  intro ah errh attr native
  constructor
  · intro h0
    simp [oci_attr_get, h0, check_error, CheckErrorStatus.toResult]
  · intro hmem
    simp only [List.mem_cons, List.not_mem_nil, or_false] at hmem
    rcases hmem with h | h | h | h | h | h
    · exact ⟨{ code := 100, message := "No data", location := "ffi::oci_attr_get" },
        by simp [oci_attr_get, h, check_error, CheckErrorStatus.toResult]⟩
    · exact ⟨{ code := -2, message := "Invalid handle",
               location := "ffi::oci_attr_get" },
        by simp [oci_attr_get, h, check_error, CheckErrorStatus.toResult]⟩
    · exact ⟨{ code := 99, message := "Need data", location := "ffi::oci_attr_get" },
        by simp [oci_attr_get, h, check_error, CheckErrorStatus.toResult]⟩
    · exact ⟨{ code := -3123, message := "Still executing",
               location := "ffi::oci_attr_get" },
        by simp [oci_attr_get, h, check_error, CheckErrorStatus.toResult]⟩
    · exact ⟨(oci_error_get errh "ffi::oci_attr_get").1,
        by simp [oci_attr_get, h, check_error, CheckErrorStatus.toResult]⟩
    · exact ⟨(oci_error_get errh "ffi::oci_attr_get").1,
        by simp [oci_attr_get, h, check_error, CheckErrorStatus.toResult]⟩

/-- Witness for C7 (amended): success case with `attrNative0`, failure case
with native status `-1`. -/
theorem c7_attr_get_amended_witness :
    oci_attr_get 0 errState0 OCIDescribeAttribute.DataSize attrNative0 = .ok (0, 4) ∧
    ∃ e, oci_attr_get 0 errState0 OCIDescribeAttribute.DataSize
      { status := -1, sizeOut := 0, payloadOut := 0 } = .err e :=
  ⟨(c7_attr_get_amended 0 errState0 OCIDescribeAttribute.DataSize attrNative0).1 rfl,
   (c7_attr_get_amended 0 errState0 OCIDescribeAttribute.DataSize
      { status := -1, sizeOut := 0, payloadOut := 0 }).2 (by decide)⟩

/-- C8: every public wrapper attaches its own fixed call-site string as the
location of any error it returns (errors from the diagnostic-retrieval path
included): the result either carries no error location or exactly the
fixed string of the wrapper. -/
theorem c8_fixed_error_locations :
    (∀ (mode : OCIMode) (status : Int) (hout : Nat),
      (oci_env_nls_create mode status hout).errLocation = none ∨
      (oci_env_nls_create mode status hout).errLocation =
        some "ffi::oci_env_nls_create") ∧
    (∀ (envh : Nat) (htype : OCIHandleType) (status : Int) (hout : Nat),
      (oci_handle_alloc envh htype status hout).errLocation = none ∨
      (oci_handle_alloc envh htype status hout).errLocation =
        some "ffi::oci_handle_alloc") ∧
    (∀ (srvh : Nat) (errh : OCIErrorState) (db : String) (mode : OCIMode)
        (status : Int),
      (oci_server_attach srvh errh db mode status).errLocation = none ∨
      (oci_server_attach srvh errh db mode status).errLocation =
        some "ffi::oci_server_attach") ∧
    (∀ (handle : Nat) (htype : OCIHandleType) (value : List Nat)
        (attr : OCIAttribute) (errh : OCIErrorState) (status : Int),
      (oci_attr_set handle htype value attr errh status).1.errLocation = none ∨
      (oci_attr_set handle htype value attr errh status).1.errLocation =
        some "ffi::oci_attr_set") ∧
    (∀ (svc : Nat) (errh : OCIErrorState) (sess : Nat)
        (credt : OCICredentialsType) (mode : OCIAuthMode) (status : Int),
      (oci_session_begin svc errh sess credt mode status).errLocation = none ∨
      (oci_session_begin svc errh sess credt mode status).errLocation =
        some "ffi::oci_session_begin") ∧
    (∀ (svc : Nat) (errh : OCIErrorState) (sess : Nat) (status : Int),
      (oci_session_end svc errh sess status).errLocation = none ∨
      (oci_session_end svc errh sess status).errLocation =
        some "ffi::oci_session_end") ∧
    (∀ (srvh : Nat) (errh : OCIErrorState) (status : Int),
      (oci_server_detach srvh errh status).errLocation = none ∨
      (oci_server_detach srvh errh status).errLocation =
        some "ffi::oci_server_detach") ∧
    (∀ (handle : Nat) (htype : OCIHandleType) (status : Int),
      (oci_handle_free handle htype status).errLocation = none ∨
      (oci_handle_free handle htype status).errLocation =
        some "ffi::oci_handle_free") ∧
    (∀ (svc : Nat) (errh : OCIErrorState) (t k : String) (status : Int)
        (sout : Nat),
      (oci_stmt_prepare2 svc errh t k status sout).errLocation = none ∨
      (oci_stmt_prepare2 svc errh t k status sout).errLocation =
        some "ffi::oci_stmt_prepare2") ∧
    (∀ (svc stmt : Nat) (errh : OCIErrorState) (status : Int),
      (oci_stmt_execute svc stmt errh status).errLocation = none ∨
      (oci_stmt_execute svc stmt errh status).errLocation =
        some "ffi::oci_stmt_execute") ∧
    (∀ (stmt : Nat) (errh : OCIErrorState) (k : String) (status : Int),
      (oci_stmt_release stmt errh k status).errLocation = none ∨
      (oci_stmt_release stmt errh k status).errLocation =
        some "ffi::oci_stmt_release") ∧
    (∀ (stmt : Nat) (errh : OCIErrorState) (pos : Nat) (status : Int)
        (pout : Nat),
      (oci_param_get stmt errh pos status pout).errLocation = none ∨
      (oci_param_get stmt errh pos status pout).errLocation =
        some "ffi::oci_param_get") ∧
    (∀ (ah : Nat) (errh : OCIErrorState) (attr : OCIDescribeAttribute)
        (native : OCIAttrGetNative),
      (oci_attr_get ah errh attr native).errLocation = none ∨
      (oci_attr_get ah errh attr native).errLocation =
        some "ffi::oci_attr_get") := by
  refine ⟨fun _ s x => ?_, fun _ _ s x => ?_, fun _ e _ _ s => ?_,
          fun _ _ _ _ e s => ?_, fun _ e _ _ _ s => ?_, fun _ e _ s => ?_,
          fun _ e s => ?_, fun _ _ s => ?_, fun _ e _ _ s _ => ?_,
          fun _ _ e s => ?_, fun _ e _ s => ?_, fun _ e _ s _ => ?_,
          fun _ e _ n => ?_⟩ <;>
    exact errLocation_toResult _ _ _ (check_error_err_location _ _ _)

/-- C9: the rendered `Display` text of an `OracleError` contains the code,
message and location, each preceded by its label "Error code", "Error
message", "Where". -/
theorem c9_display_labeled_fields :
    ∀ (e : OracleError),
      (∃ a b, e.display = a ++ ("Error code: " ++ toString e.code) ++ b) ∧
      (∃ a b, e.display = a ++ ("Error message: " ++ e.message) ++ b) ∧
      (∃ a b, e.display = a ++ ("Where: " ++ e.location) ++ b) := by
  intro e
  refine ⟨⟨"\n\n  ", "\n  Error message: " ++ e.message ++ "\n  Where: " ++
            e.location ++ "\n\n", ?_⟩,
          ⟨"\n\n  Error code: " ++ toString e.code ++ "\n  ",
            "\n  Where: " ++ e.location ++ "\n\n", ?_⟩,
          ⟨"\n\n  Error code: " ++ toString e.code ++ "\n  Error message: " ++
            e.message ++ "\n  ", "\n\n", ?_⟩⟩
  · simp only [OracleError.display,
      append_regroup "\n\n  " "Error code: " "\n\n  Error code: " rfl,
      String.append_assoc]
  · simp only [OracleError.display,
      append_regroup "\n  " "Error message: " "\n  Error message: " rfl,
      String.append_assoc]
  · simp only [OracleError.display,
      append_regroup "\n  " "Where: " "\n  Where: " rfl,
      String.append_assoc]

/-- C10: the error returned by `oci_error_get` always has an empty message:
the 3072-byte-capacity buffer is a zero-length `String`, and the bytes the
native layer writes into it are never incorporated into the returned value. -/
theorem c10_error_get_empty_message :
    ∀ (h : OCIErrorState) (loc : String),
      (oci_error_get h loc).1.message = "" := by
  intro h loc
  rfl

end RustOci
